import Mathlib

/-!
Verification development for the dependency-checking core of the TexText
repository (`textext/requirements_check.py`).

The Python classes `TrinaryLogicValue`, `RequirementCheckResult`,
`Requirement` and `TexTextRequirementsChecker` are shallowly embedded below.
Python's mutable result objects are rendered as pure values; methods that
mutate an object in place are rendered as functions returning the updated
value.  The checker's side effects (success callbacks writing discovered
paths into the checker object) are rendered as explicit state passing over a
`CheckerState` record.
-/

/-- Embeds class `TrinaryLogicValue`: its `value` attribute ranges over the
Python values `True`, `False` and `None` (the latter meaning "unknown"). -/
inductive TrinaryLogicValue where
  | true
  | false
  | unknown
deriving DecidableEq

namespace TrinaryLogicValue

/-- Conversion of a raw Python bool into the wrapped trinary value, as done
by the `TrinaryLogicValue` constructor. -/
def ofBool (b : Bool) : TrinaryLogicValue :=
  if b then TrinaryLogicValue.true else TrinaryLogicValue.false

/-- Embeds `TrinaryLogicValue.__and__`: false-dominant, then
unknown-dominant, then true.  The Python comparisons `rhs.value == False`
and `self.value is None` test exactly the corresponding variant. -/
def and (a rhs : TrinaryLogicValue) : TrinaryLogicValue :=
  if rhs = TrinaryLogicValue.false ∨ a = TrinaryLogicValue.false then TrinaryLogicValue.false
  else if rhs = TrinaryLogicValue.unknown ∨ a = TrinaryLogicValue.unknown then TrinaryLogicValue.unknown
  else TrinaryLogicValue.true

/-- Embeds `TrinaryLogicValue.__or__`: true-dominant, then unknown-dominant,
then false. -/
def or (a rhs : TrinaryLogicValue) : TrinaryLogicValue :=
  if rhs = TrinaryLogicValue.true ∨ a = TrinaryLogicValue.true then TrinaryLogicValue.true
  else if rhs = TrinaryLogicValue.unknown ∨ a = TrinaryLogicValue.unknown then TrinaryLogicValue.unknown
  else TrinaryLogicValue.false

/-- Embeds `TrinaryLogicValue.__invert__`: unknown is fixed, booleans are
complemented. -/
def invert (a : TrinaryLogicValue) : TrinaryLogicValue :=
  match a with
  | TrinaryLogicValue.unknown => TrinaryLogicValue.unknown
  | TrinaryLogicValue.true => TrinaryLogicValue.false
  | TrinaryLogicValue.false => TrinaryLogicValue.true

/-- Embeds `TrinaryLogicValue.__eq__` against another `TrinaryLogicValue`:
`self.value is None and rhs.value is None or self.value == rhs.value`.
On the value range `\x7bTrue, False, None\x7d` this is structural equality. -/
def eqv (a rhs : TrinaryLogicValue) : Bool :=
  (decide (a = TrinaryLogicValue.unknown) && decide (rhs = TrinaryLogicValue.unknown))
    || decide (a = rhs)

/-- Embeds `TrinaryLogicValue.__eq__` against a raw Python value (`True`,
`False` or `None`, encoded as `Option Bool`):
`self.value is None and rhs is None or self.value == rhs`. -/
def eqRaw (a : TrinaryLogicValue) (rhs : Option Bool) : Bool :=
  (decide (a = TrinaryLogicValue.unknown) && decide (rhs = none))
    || match rhs with
       | none => decide (a = TrinaryLogicValue.unknown)
       | some b => decide (a = ofBool b)

end TrinaryLogicValue

/-- Embeds Python's `dict.update` on the `kwargs` dictionaries (string keys,
string values in this program: the only key the program ever stores is
`"path"`).  Keys of `base` keep their position and receive the value from
`upd` when `upd` also binds them; keys only in `upd` are appended in order. -/
def dictUpdate (base upd : List (String × String)) : List (String × String) :=
  base.map (fun p =>
    match upd.find? (fun q => q.1 = p.1) with
    | some q => (p.1, q.2)
    | none => p)
  ++ upd.filter (fun q => base.all (fun p => ¬ (p.1 = q.1)))

/-- Embeds class `RequirementCheckResult`: a tree node carrying a trinary
value, human-readable messages, child results, the three node-kind flags
passed to `__init__`, the `is_critical` attribute (initially `None`,
i.e. `none`; set to `True` by `mark_critical_errors`) and the open `kwargs`
dictionary. Messages are normalized to a list at the embedding level (the
Python code list-wraps a bare string in `Requirement.check`). -/
inductive RequirementCheckResult where
  | mk (value : TrinaryLogicValue) (messages : List String)
       (nested : List RequirementCheckResult)
       (is_and_node : Bool) (is_or_node : Bool) (is_not_node : Bool)
       (is_critical : Option Bool)
       (kwargs : List (String × String))

namespace RequirementCheckResult

def value : RequirementCheckResult → TrinaryLogicValue
  | mk v _ _ _ _ _ _ _ => v

def messages : RequirementCheckResult → List String
  | mk _ m _ _ _ _ _ _ => m

def nested : RequirementCheckResult → List RequirementCheckResult
  | mk _ _ n _ _ _ _ _ => n

def is_and_node : RequirementCheckResult → Bool
  | mk _ _ _ a _ _ _ _ => a

def is_or_node : RequirementCheckResult → Bool
  | mk _ _ _ _ o _ _ _ => o

def is_not_node : RequirementCheckResult → Bool
  | mk _ _ _ _ _ n _ _ => n

def is_critical : RequirementCheckResult → Option Bool
  | mk _ _ _ _ _ _ c _ => c

def kwargs : RequirementCheckResult → List (String × String)
  | mk _ _ _ _ _ _ _ k => k

/-- Replaces the `messages` attribute, as the in-place assignments to
`result.messages` in `Requirement.check` do. -/
def withMessages (m : List String) : RequirementCheckResult → RequirementCheckResult
  | mk v _ n a o nn c k => mk v m n a o nn c k

/-- Embeds `RequirementCheckResult.__getitem__`: `self.kwargs[item]`.
Python raises `KeyError` when the key is absent; the embedding returns
`none` there, and the one caller whose behaviour depends on that exception
(`find_inkscape_1_0`) turns `none` back into the `KeyError` case. -/
def getItem (t : RequirementCheckResult) (item : String) : Option String :=
  (t.kwargs.find? (fun p => p.1 = item)).map (fun p => p.2)

/-- The non-recursive tail of `RequirementCheckResult.flatten` (lines
151-198): the if-chain run after all children have been flattened.
`nested` here is already the list of flattened children. -/
def flattenStep (v : TrinaryLogicValue) (msgs : List String)
    (nested : List RequirementCheckResult)
    (a o n : Bool) (crit : Option Bool) (kw : List (String × String)) :
    RequirementCheckResult :=
  match nested with
  | [] => mk v msgs [] a o n crit kw
  | fst :: rest =>
    if fst.is_or_node && o then
      mk v (fst.messages ++ msgs) (fst.nested ++ rest)
        Bool.false Bool.true Bool.false none (dictUpdate kw fst.kwargs)
    else if fst.is_and_node && a then
      mk v (fst.messages ++ msgs) (fst.nested ++ rest)
        Bool.true Bool.false Bool.false none (dictUpdate kw fst.kwargs)
    else
      let lst := (fst :: rest).getLast (List.cons_ne_nil fst rest)
      if lst.is_or_node && o then
        mk v (msgs ++ lst.messages) ((fst :: rest).dropLast ++ lst.nested)
          Bool.false Bool.true Bool.false none (dictUpdate kw lst.kwargs)
      else if lst.is_and_node && a then
        mk v (msgs ++ lst.messages) ((fst :: rest).dropLast ++ lst.nested)
          Bool.true Bool.false Bool.false none (dictUpdate kw lst.kwargs)
      else if lst.is_not_node then
        mk v msgs (fst :: rest) a o n crit (dictUpdate kw lst.kwargs)
      else
        mk v msgs (fst :: rest) a o n crit kw

end RequirementCheckResult

mutual
/-- Embeds `RequirementCheckResult.flatten`: a node with no children is
returned unchanged; otherwise all children are flattened first and the
merge if-chain (`flattenStep`) runs on the result. -/
def RequirementCheckResult.flatten : RequirementCheckResult → RequirementCheckResult
  | RequirementCheckResult.mk v msgs nested a o n crit kw =>
    match nested with
    | [] => RequirementCheckResult.mk v msgs [] a o n crit kw
    | c :: cs =>
      RequirementCheckResult.flattenStep v msgs
        (RequirementCheckResult.flattenList (c :: cs)) a o n crit kw

/-- Flattens each child in turn (the `for i, nst in enumerate(self.nested)`
loop in `flatten`). -/
def RequirementCheckResult.flattenList :
    List RequirementCheckResult → List RequirementCheckResult
  | [] => []
  | c :: cs => RequirementCheckResult.flatten c :: RequirementCheckResult.flattenList cs
end

mutual
/-- Height of a result tree: 1 plus the maximal height of a child.  Used
only to supply sufficient fuel to `markCriticalErrors`. -/
def RequirementCheckResult.height : RequirementCheckResult → Nat
  | RequirementCheckResult.mk _ _ nested _ _ _ _ _ =>
    RequirementCheckResult.heightList nested + 1

def RequirementCheckResult.heightList : List RequirementCheckResult → Nat
  | [] => 0
  | c :: cs =>
    max (RequirementCheckResult.height c) (RequirementCheckResult.heightList cs)
end

namespace RequirementCheckResult

/-- Embeds `RequirementCheckResult.mark_critical_errors`, fuel-indexed.
The recursion of the Python method descends one tree level per call, but in
its `is_not_node` branch it may re-visit a child already rewritten by the
`is_and_node or is_or_node` branch (possible only when a node carries both
flags), which is not structurally decreasing; the fuel argument makes the
recursion well-founded.  `markAux` only ever rewrites `is_critical` flags,
so it preserves `height` (`markAux_height` below), and `markCriticalErrors`
passes `height t` as fuel, which therefore never runs out: the fuel-zero
branch is unreachable from `markCriticalErrors`. -/
def markAux : Nat → Bool → RequirementCheckResult → RequirementCheckResult
  | 0, _, t => t
  | fuel + 1, non_critical_value, mk v msgs nested a o n crit kw =>
    if v.eqRaw (some non_critical_value) then mk v msgs nested a o n crit kw
    else if v.eqRaw none then mk v msgs nested a o n crit kw
    else
      let nested1 :=
        if a || o then
          nested.map (fun nst =>
            if ! (nst.value.eqRaw (some non_critical_value)) then
              markAux fuel non_critical_value nst
            else nst)
        else nested
      let nested2 :=
        if n then nested1.map (markAux fuel (! non_critical_value))
        else nested1
      mk v msgs nested2 a o n (some Bool.true) kw

/-- `mark_critical_errors` with its default argument `non_critical_value` as
an explicit parameter. -/
def markCriticalErrors (non_critical_value : Bool) (t : RequirementCheckResult) :
    RequirementCheckResult :=
  markAux t.height non_critical_value t

end RequirementCheckResult

/-- The four message buckets keyed `"ANY"`, `"SUCCESS"`, `"ERROR"`,
`"UNKNOWN"` in `Requirement._prepended_messages` / `_appended_messages`. -/
structure MessageDict where
  ANY : List String
  SUCCESS : List String
  ERROR : List String
  UNKNOWN : List String

def MessageDict.empty : MessageDict := ⟨[], [], [], []⟩

/-- The valid `result_type` keys of `prepend_message` / `append_message`.
Python passes them as strings and rejects any other string with an
`assert`; the embedding closes the domain into an enumeration. -/
inductive MsgClass where
  | ANY
  | SUCCESS
  | ERROR
  | UNKNOWN
deriving DecidableEq

def MessageDict.get (d : MessageDict) : MsgClass → List String
  | MsgClass.ANY => d.ANY
  | MsgClass.SUCCESS => d.SUCCESS
  | MsgClass.ERROR => d.ERROR
  | MsgClass.UNKNOWN => d.UNKNOWN

/-- Embeds `dict[key].extend(message)` in the builder methods. -/
def MessageDict.extend (d : MessageDict) (c : MsgClass) (message : List String) : MessageDict :=
  match c with
  | MsgClass.ANY => { d with ANY := d.ANY ++ message }
  | MsgClass.SUCCESS => { d with SUCCESS := d.SUCCESS ++ message }
  | MsgClass.ERROR => { d with ERROR := d.ERROR ++ message }
  | MsgClass.UNKNOWN => { d with UNKNOWN := d.UNKNOWN ++ message }

/-- Embeds class `Requirement` over an explicit state type `σ` (the
TexText checker threads its own object through probe and callback
closures; `σ` is that shared mutable state made explicit).  `criteria` is
the stored zero-argument probe closure; callbacks receive the result node
(to read its `kwargs`) and update the state. -/
structure Requirement (σ : Type) where
  criteria : σ → RequirementCheckResult × σ
  prepended_messages : MessageDict
  appended_messages : MessageDict
  overwrite_messages : Option (List String)
  on_unknown_callbacks : List (RequirementCheckResult → σ → σ)
  on_success_callbacks : List (RequirementCheckResult → σ → σ)
  on_failure_callbacks : List (RequirementCheckResult → σ → σ)

namespace Requirement

/-- Embeds `Requirement.__init__`: empty buckets, no overwrite, no
callbacks (probe arguments are pre-bound in the closure). -/
def ofCriteria {σ : Type} (criteria : σ → RequirementCheckResult × σ) : Requirement σ :=
  ⟨criteria, MessageDict.empty, MessageDict.empty, none, [], [], []⟩

/-- Runs a callback list in registration order (`for callback in ...`). -/
def runCallbacks {σ : Type} (cbs : List (RequirementCheckResult → σ → σ))
    (result : RequirementCheckResult) (s : σ) : σ :=
  cbs.foldl (fun s cb => cb result s) s

/-- Embeds `Requirement.check` (lines 232-259).  Message normalization
(`if not isinstance(result.messages, list)`) is the identity here because
the embedding keeps `messages` a list throughout.  The three value tests
are the Python comparisons `result.value == TrinaryLogicValue(...)`;
callbacks fire between the prepend block and the append block and see the
result with its messages as of prepend time. -/
def check {σ : Type} (r : Requirement σ) (s : σ) : RequirementCheckResult × σ :=
  let (result, s) := r.criteria s
  let msgs :=
    match r.overwrite_messages with
    | some m => m
    | none => result.messages
  let msgs := r.prepended_messages.ANY ++ msgs
  let (msgs, s) :=
    if result.value.eqv TrinaryLogicValue.true then
      let m := r.prepended_messages.SUCCESS ++ msgs
      (m, runCallbacks r.on_success_callbacks (result.withMessages m) s)
    else (msgs, s)
  let (msgs, s) :=
    if result.value.eqv TrinaryLogicValue.false then
      let m := r.prepended_messages.ERROR ++ msgs
      (m, runCallbacks r.on_failure_callbacks (result.withMessages m) s)
    else (msgs, s)
  let (msgs, s) :=
    if result.value.eqv TrinaryLogicValue.unknown then
      let m := r.prepended_messages.UNKNOWN ++ msgs
      (m, runCallbacks r.on_unknown_callbacks (result.withMessages m) s)
    else (msgs, s)
  let msgs := msgs ++ r.appended_messages.ANY
  let msgs :=
    if result.value.eqv TrinaryLogicValue.true then msgs ++ r.appended_messages.SUCCESS else msgs
  let msgs :=
    if result.value.eqv TrinaryLogicValue.false then msgs ++ r.appended_messages.ERROR else msgs
  let msgs :=
    if result.value.eqv TrinaryLogicValue.unknown then msgs ++ r.appended_messages.UNKNOWN else msgs
  (result.withMessages msgs, s)

/-- Embeds `Requirement.prepend_message` (a bare string is list-wrapped by
the Python method; the embedding takes the list form). -/
def prepend_message {σ : Type} (r : Requirement σ) (result_type : MsgClass)
    (message : List String) : Requirement σ :=
  { r with prepended_messages := r.prepended_messages.extend result_type message }

/-- Embeds `Requirement.append_message`. -/
def append_message {σ : Type} (r : Requirement σ) (result_type : MsgClass)
    (message : List String) : Requirement σ :=
  { r with appended_messages := r.appended_messages.extend result_type message }

/-- Embeds `Requirement.overwrite_check_message`. -/
def overwrite_check_message {σ : Type} (r : Requirement σ) (message : List String) :
    Requirement σ :=
  { r with overwrite_messages := some message }

/-- Embeds `Requirement.on_success`. -/
def on_success {σ : Type} (r : Requirement σ)
    (callback : RequirementCheckResult → σ → σ) : Requirement σ :=
  { r with on_success_callbacks := r.on_success_callbacks ++ [callback] }

/-- Embeds `Requirement.on_failure`. -/
def on_failure {σ : Type} (r : Requirement σ)
    (callback : RequirementCheckResult → σ → σ) : Requirement σ :=
  { r with on_failure_callbacks := r.on_failure_callbacks ++ [callback] }

/-- Embeds `Requirement.on_unknown`. -/
def on_unknown {σ : Type} (r : Requirement σ)
    (callback : RequirementCheckResult → σ → σ) : Requirement σ :=
  { r with on_unknown_callbacks := r.on_unknown_callbacks ++ [callback] }

/-- Embeds `Requirement.__and__` / its inner `and_impl`: check the left
operand, then the right operand, and wrap both results in a fresh
And-tagged node with the conjoined value and no own messages. -/
def and {σ : Type} (l rhs : Requirement σ) : Requirement σ :=
  ofCriteria (fun s =>
    let (L, s) := l.check s
    let (R, s) := rhs.check s
    (RequirementCheckResult.mk (L.value.and R.value) [] [L, R]
      Bool.true Bool.false Bool.false none [], s))

/-- Embeds `Requirement.__or__` / `or_impl`. -/
def or {σ : Type} (l rhs : Requirement σ) : Requirement σ :=
  ofCriteria (fun s =>
    let (L, s) := l.check s
    let (R, s) := rhs.check s
    (RequirementCheckResult.mk (L.value.or R.value) [] [L, R]
      Bool.false Bool.true Bool.false none [], s))

/-- Embeds `Requirement.__invert__` / `invert_impl`. -/
def invert {σ : Type} (l : Requirement σ) : Requirement σ :=
  ofCriteria (fun s =>
    let (L, s) := l.check s
    (RequirementCheckResult.mk L.value.invert [] [L]
      Bool.false Bool.false Bool.true none [], s))

end Requirement

/-- The Python exceptions relevant to the leaf probes: `KeyError`,
`OSError`, `subprocess.CalledProcessError`, and a representative for any
other (unexpected) exception.  `system_env.call_command` (external
collaborator) raises `OSError` when the executable cannot be launched and
`CalledProcessError` on a non-zero exit; dictionary and `__getitem__`
lookups raise `KeyError`. -/
inductive PyExc where
  | keyError
  | osError
  | calledProcessError
  | other
deriving DecidableEq

/-- Embeds `TexTextRequirementsChecker.find_pygtk3`, parametrized by the
outcome of the `system_env.call_command` probe call (stdout and stderr on
success, the raised exception otherwise).  The `try` block catches exactly
`(KeyError, OSError, subprocess.CalledProcessError)`. -/
def find_pygtk3 (call_command : Except PyExc (String × String)) :
    Except PyExc RequirementCheckResult :=
  match call_command with
  | Except.error e =>
    if e = PyExc.keyError ∨ e = PyExc.osError ∨ e = PyExc.calledProcessError then
      Except.ok (RequirementCheckResult.mk TrinaryLogicValue.false
        ["GTK3 is not found"] [] Bool.false Bool.false Bool.false none [])
    else Except.error e
  | Except.ok _ =>
    Except.ok (RequirementCheckResult.mk TrinaryLogicValue.true
      ["GTK3 is found"] [] Bool.false Bool.false Bool.false none [])

/-- Embeds `TexTextRequirementsChecker.find_tkinter` (the import script
text depends only on the Python major version and does not influence the
result shape).  Same `except` clause as `find_pygtk3`. -/
def find_tkinter (call_command : Except PyExc (String × String)) :
    Except PyExc RequirementCheckResult :=
  match call_command with
  | Except.error e =>
    if e = PyExc.keyError ∨ e = PyExc.osError ∨ e = PyExc.calledProcessError then
      Except.ok (RequirementCheckResult.mk TrinaryLogicValue.false
        ["TkInter is not found"] [] Bool.false Bool.false Bool.false none [])
    else Except.error e
  | Except.ok _ =>
    Except.ok (RequirementCheckResult.mk TrinaryLogicValue.true
      ["TkInter is found"] [] Bool.false Bool.false Bool.false none [])

/-- Embeds `os.path.join` for the POSIX paths this program passes around
(directory without trailing separator, plain file name). -/
def joinPath (dir name : String) : String := dir ++ "/" ++ name

/-- The inner double loop of
`TexTextRequirementsChecker._find_executable_in_path`: iterate over the
candidate executable names; for each, scan every directory of the system
path, recording a message per hit and remembering the first hit; a name
with at least one hit wins.  `messages` accumulates across candidate
names exactly as the single `messages` list does in Python. -/
def findExeLoop (check_executable : String → Bool) (system_path : List String) :
    List String → List String → Except PyExc RequirementCheckResult
  | [], messages =>
    Except.ok (RequirementCheckResult.mk TrinaryLogicValue.false messages []
      Bool.false Bool.false Bool.false none [])
  | exe_name :: rest, messages =>
    let found_dirs := system_path.filter (fun p => check_executable (joinPath p exe_name))
    let messages := messages ++
      found_dirs.map (fun p => "`" ++ exe_name ++ "` is found at `" ++ p ++ "`")
    match found_dirs with
    | first_path :: _ =>
      Except.ok (RequirementCheckResult.mk TrinaryLogicValue.true messages []
        Bool.false Bool.false Bool.false none [("path", joinPath first_path exe_name)])
    | [] =>
      findExeLoop check_executable system_path rest
        (messages ++ ["`" ++ exe_name ++ "` is NOT found in PATH"])

/-- Embeds `TexTextRequirementsChecker._find_executable_in_path`.
`executable_names` is the external `system_env.executable_names` mapping;
Python's `system_env.executable_names[prog_name]` raises `KeyError` for an
unknown program name, and no handler in this method or its caller catches
it.  Verbose logger calls are output-only and omitted. -/
def find_executable_in_path (check_executable : String → Bool)
    (executable_names : String → Option (List String)) (system_path : List String)
    (prog_name : String) : Except PyExc RequirementCheckResult :=
  match executable_names prog_name with
  | none => Except.error PyExc.keyError
  | some names => findExeLoop check_executable system_path names []

/-- Embeds `TexTextRequirementsChecker.find_executable`: first the
configured `"<prog_name>-executable"` path (accepted only if
`check_executable` passes — the returned message is a bare string in
Python, list-wrapped here), otherwise fall back to the PATH search.
`check_executable` stands for the `os.path.isfile`/`os.access` test
against the external file system. -/
def find_executable (config : String → Option String) (check_executable : String → Bool)
    (executable_names : String → Option (List String)) (system_path : List String)
    (prog_name : String) : Except PyExc RequirementCheckResult :=
  match config (prog_name ++ "-executable") with
  | some executable_path =>
    if check_executable executable_path then
      Except.ok (RequirementCheckResult.mk TrinaryLogicValue.true
        [prog_name ++ " is found at `" ++ executable_path ++ "`"] []
        Bool.false Bool.false Bool.false none [("path", executable_path)])
    else
      find_executable_in_path check_executable executable_names system_path prog_name
  | none => find_executable_in_path check_executable executable_names system_path prog_name

/-- Digit run folded into a number, as `int(...)` does on the matched
digit group (the group is all ASCII digits by construction). -/
def natOfDigits (ds : List Char) : Nat :=
  ds.foldl (fun acc c => acc * 10 + (c.toNat - 48)) 0

/-- The character class `[-\w]` of the version regex (ASCII view:
alphanumeric, underscore or dash). -/
def isWordDashChar (c : Char) : Bool :=
  c.isAlphanum || c = '_' || c = '-'

/-- Literal-prefix test used to anchor the version regex at a position. -/
def startsWithChars : List Char → List Char → Bool
  | [], _ => Bool.true
  | p :: ps, c :: rest => p = c && startsWithChars ps rest
  | _ :: _, [] => Bool.false

/-- An anchored match of the regex `Inkscape ((\d+)\.(\d+)[-\w]*)` at the
start of `cs`: the literal `"Inkscape "`, a non-empty digit run (major), a
dot, a non-empty digit run (minor), then a maximal `[-\w]*` tail.  Returns
(group 1, major, minor).  The greedy `\d+` runs are maximal and followed
by characters outside their class, so no backtracking arises. -/
def matchInkscapeAt (cs : List Char) : Option (String × Nat × Nat) :=
  let pat := "Inkscape ".toList
  if startsWithChars pat cs then
    let rest := cs.drop pat.length
    let d1 := rest.takeWhile Char.isDigit
    let r1 := rest.dropWhile Char.isDigit
    if d1.isEmpty then none
    else
      match r1 with
      | '.' :: r2 =>
        let d2 := r2.takeWhile Char.isDigit
        let r3 := r2.dropWhile Char.isDigit
        if d2.isEmpty then none
        else
          let tail := r3.takeWhile isWordDashChar
          some (String.mk (d1 ++ '.' :: (d2 ++ tail)), natOfDigits d1, natOfDigits d2)
      | _ => none
  else none

/-- `re.search` of the version regex over a line: the leftmost position
with an anchored match wins. -/
def searchInkscape : List Char → Option (String × Nat × Nat)
  | [] => none
  | c :: rest =>
    match matchInkscapeAt (c :: rest) with
    | some r => some r
    | none => searchInkscape rest

/-- The `for stdout_line in stdout...split("\n")` loop of
`find_inkscape_1_0`: the first line with a regex match decides (True with
the executable recorded under `"path"` if the major version is at least 1,
False otherwise); no match on any line yields Unknown. -/
def inkscapeVersionScan (executable : String) :
    List String → RequirementCheckResult
  | [] =>
    RequirementCheckResult.mk TrinaryLogicValue.unknown
      ["Can\x27t determinate inkscape version"] [] Bool.false Bool.false Bool.false none []
  | line :: rest =>
    match searchInkscape line.toList with
    | some (found_version, major, _minor) =>
      if major ≥ 1 then
        RequirementCheckResult.mk TrinaryLogicValue.true
          ["inkscape=" ++ found_version ++ " is found"] []
          Bool.false Bool.false Bool.false none [("path", executable)]
      else
        RequirementCheckResult.mk TrinaryLogicValue.false
          ["inkscape>=1.0 is not found (but inkscape=" ++ found_version ++ " is found)"] []
          Bool.false Bool.false Bool.false none []
    | none => inkscapeVersionScan executable rest

/-- Embeds `TexTextRequirementsChecker.find_inkscape_1_0`, parametrized by
the outcome of `self.find_executable('inkscape')` and by the outcome of the
`--version` subprocess call.  The `try` block covers the executable lookup
(whose `['path']` subscript raises `KeyError` when `find_executable`
returned a result without a path) and the subprocess call, and catches
exactly `(KeyError, OSError)` — a `CalledProcessError` from a non-zero exit
propagates.  `stdout` is the already-decoded text (`decode("utf-8",
'ignore')` on the captured bytes). -/
def find_inkscape_1_0 (find_executable_result : Except PyExc RequirementCheckResult)
    (call_command : String → Except PyExc (String × String)) :
    Except PyExc RequirementCheckResult :=
  let attempt : Except PyExc (String × String × String) :=
    match find_executable_result with
    | Except.error e => Except.error e
    | Except.ok r =>
      match r.getItem "path" with
      | none => Except.error PyExc.keyError
      | some executable =>
        match call_command executable with
        | Except.error e => Except.error e
        | Except.ok (stdout, stderr) => Except.ok (executable, stdout, stderr)
  match attempt with
  | Except.error PyExc.keyError =>
    Except.ok (RequirementCheckResult.mk TrinaryLogicValue.false
      ["inkscape is not found"] [] Bool.false Bool.false Bool.false none [])
  | Except.error PyExc.osError =>
    Except.ok (RequirementCheckResult.mk TrinaryLogicValue.false
      ["inkscape is not found"] [] Bool.false Bool.false Bool.false none [])
  | Except.error e => Except.error e
  | Except.ok (executable, stdout, _) =>
    Except.ok (inkscapeVersionScan executable (stdout.splitOn "\n"))

/-- The mutable discovery fields of `TexTextRequirementsChecker` written by
`__init__` and by the success callbacks inside `check` (the `logger` and
`config` collaborators are not state in this sense:  `config` is read-only
here and the logger is output-only). -/
structure CheckerState where
  available_tex_to_pdf_converters : List (String × String)
  available_pdf_to_svg_converters : List (String × String)
  inkscape_executable : Option String
  pygtk_is_found : Bool
  tkinter_is_found : Bool

/-- The field values set by `TexTextRequirementsChecker.__init__`. -/
def CheckerState.init : CheckerState :=
  ⟨[], [], none, Bool.false, Bool.false⟩

/-- Modelled from the spec: the parts of the external `system_env`
collaborator (module `environment`, not part of the excerpt) and of the
`LoggingColors` constants (module `log_util`, not part of the excerpt) that
`help_message_with_url` reads — a platform name, a console-color mode
string, and the three color escape strings. -/
structure SysEnv where
  os_name : String
  console_colors : String
  fg_light_blue : String
  underlined : String
  color_reset : String

/-- Embeds the local helper `help_message_with_url` of
`TexTextRequirementsChecker.check`. -/
def help_message_with_url (env : SysEnv) (section_name : String)
    (executable_name : Option String) : List String :=
  let user := "textext"
  let url := "https://" ++ user ++ ".github.io/textext/install/" ++ env.os_name
    ++ ".html#" ++ env.os_name ++ "-install-" ++ section_name
  let url_line :=
    if env.console_colors = "always" then
      "       " ++ (env.fg_light_blue ++ env.underlined) ++ url ++ env.color_reset
    else
      "       " ++ url
  let result := ["Please follow installation instructions at ", url_line]
  match executable_name with
  | some name =>
    result ++
      ["If " ++ name ++ " is installed in custom location, specify it via ",
       "       --" ++ name ++ "-executable=<path-to-" ++ name ++ ">",
       "and run setup.py again"]
  | none => result

/-- Embeds the local callback `set_inkscape` composed with the lambda
`lambda result: set_inkscape(result["path"])`.  On the results this
callback is registered for (success results of `find_inkscape_1_0`) the
`"path"` key is always present; on a missing key Python would raise
`KeyError` inside `check`, a case the program never reaches. -/
def set_inkscape (result : RequirementCheckResult) (s : CheckerState) : CheckerState :=
  { s with inkscape_executable := result.getItem "path" }

/-- Embeds the local callback `add_latex` composed with
`lambda result: add_latex(name, result["path"])`:
`self.available_tex_to_pdf_converters.update(\x7bname: exe\x7d)`.  Success
results of `find_executable` always carry `"path"`; a missing key would be
a `KeyError` in Python, never reached by the program. -/
def add_latex (name : String) (result : RequirementCheckResult) (s : CheckerState) :
    CheckerState :=
  match result.getItem "path" with
  | some exe =>
    { s with available_tex_to_pdf_converters :=
        dictUpdate s.available_tex_to_pdf_converters [(name, exe)] }
  | none => s

/-- Embeds the local callback `set_pygtk`. -/
def set_pygtk (_result : RequirementCheckResult) (s : CheckerState) : CheckerState :=
  { s with pygtk_is_found := Bool.true }

/-- Embeds the local callback `set_tkinter`. -/
def set_tkinter (_result : RequirementCheckResult) (s : CheckerState) : CheckerState :=
  { s with tkinter_is_found := Bool.true }

/-- The outcome of each of the six leaf probes for one evaluation of the
checker: `Requirement(self.find_inkscape_1_0)` etc. store the probe
closures, and this record holds the `RequirementCheckResult` each closure
returns when called (the claims evaluate the checker against mocked leaf
results; runs where a probe raises never reach the tree evaluation). -/
structure ProbeResults where
  inkscape : RequirementCheckResult
  pdflatex : RequirementCheckResult
  lualatex : RequirementCheckResult
  xelatex : RequirementCheckResult
  pygtk3 : RequirementCheckResult
  tkinter : RequirementCheckResult

/-- The decorated inkscape requirement of the `textext_requirements`
expression (lines 470-473):
`Requirement(self.find_inkscape_1_0).prepend_message(...).append_message(...)
.on_success(lambda result: set_inkscape(result["path"]))`. -/
def req_inkscape (env : SysEnv) (p : ProbeResults) : Requirement CheckerState :=
  (((Requirement.ofCriteria (fun (s : CheckerState) => (p.inkscape, s))).prepend_message
    MsgClass.ANY ["Detect inkscape>=1.0"]).append_message
    MsgClass.ERROR (help_message_with_url env "preparation" (some "inkscape"))).on_success
    set_inkscape

/-- The decorated pdflatex requirement (lines 475-477). -/
def req_pdflatex (env : SysEnv) (p : ProbeResults) : Requirement CheckerState :=
  (((Requirement.ofCriteria (fun (s : CheckerState) => (p.pdflatex, s))).on_success
    (add_latex "pdflatex")).append_message
    MsgClass.ERROR (help_message_with_url env "preparation" (some "pdflatex")))

/-- The decorated lualatex requirement (lines 478-480). -/
def req_lualatex (env : SysEnv) (p : ProbeResults) : Requirement CheckerState :=
  (((Requirement.ofCriteria (fun (s : CheckerState) => (p.lualatex, s))).on_success
    (add_latex "lualatex")).append_message
    MsgClass.ERROR (help_message_with_url env "preparation" (some "lualatex")))

/-- The decorated xelatex requirement (lines 481-483). -/
def req_xelatex (env : SysEnv) (p : ProbeResults) : Requirement CheckerState :=
  (((Requirement.ofCriteria (fun (s : CheckerState) => (p.xelatex, s))).on_success
    (add_latex "xelatex")).append_message
    MsgClass.ERROR (help_message_with_url env "preparation" (some "xelatex")))

/-- The `*latex` Or-group with its overwritten summary message and appended
help (lines 474-485); `|` is left-associative in Python. -/
def latex_group (env : SysEnv) (p : ProbeResults) : Requirement CheckerState :=
  (((((req_pdflatex env p).or (req_lualatex env p)).or
    (req_xelatex env p)).overwrite_check_message
    ["Detect *latex"]).append_message
    MsgClass.ERROR (help_message_with_url env "preparation" none))

/-- The decorated pygtk requirement (lines 487-488). -/
def req_pygtk (env : SysEnv) (p : ProbeResults) : Requirement CheckerState :=
  (((Requirement.ofCriteria (fun (s : CheckerState) => (p.pygtk3, s))).on_success
    set_pygtk).append_message
    MsgClass.ERROR (help_message_with_url env "gtk3" none))

/-- The decorated tkinter requirement (lines 489-490). -/
def req_tkinter (env : SysEnv) (p : ProbeResults) : Requirement CheckerState :=
  (((Requirement.ofCriteria (fun (s : CheckerState) => (p.tkinter, s))).on_success
    set_tkinter).append_message
    MsgClass.ERROR (help_message_with_url env "tkinter" none))

/-- The GUI-library Or-group with its overwritten summary message and
appended help (lines 486-492). -/
def gui_group (env : SysEnv) (p : ProbeResults) : Requirement CheckerState :=
  ((((req_pygtk env p).or (req_tkinter env p)).overwrite_check_message
    ["Detect GUI library"]).append_message
    MsgClass.ERROR (help_message_with_url env "gui-library" none))

/-- Embeds the `textext_requirements` expression of
`TexTextRequirementsChecker.check` (lines 469-493), with the source's
association: `&` is left-associative in Python, and the final
`overwrite_check_message` decorates the outermost composite. -/
def textext_requirements (env : SysEnv) (p : ProbeResults) : Requirement CheckerState :=
  (((req_inkscape env p).and (latex_group env p)).and
    (gui_group env p)).overwrite_check_message
    ["TexText requirements"]

/-- Embeds `TexTextRequirementsChecker.check` (lines 428-503): evaluate the
requirement tree, flatten the result, mark critical errors with the default
`non_critical_value=True`, and return the root's trinary value.
`print_to_logger` writes to the logger only — it changes neither the tree
nor the checker state — and is omitted. -/
def TexTextRequirementsChecker.check (env : SysEnv) (p : ProbeResults)
    (s : CheckerState) : TrinaryLogicValue × CheckerState :=
  let (check_result, s) := (textext_requirements env p).check s
  let check_result := check_result.flatten
  let check_result := RequirementCheckResult.markCriticalErrors Bool.true check_result
  (check_result.value, s)

/-- A leaf result node as the probes construct them: no children, no kind
flag, `is_critical = None`. -/
def mkLeaf (v : TrinaryLogicValue) (m : List String) : RequirementCheckResult :=
  RequirementCheckResult.mk v m [] Bool.false Bool.false Bool.false none []

/-- An And-tagged node as `and_impl` constructs them. -/
def mkAnd (v : TrinaryLogicValue) (m : List String)
    (cs : List RequirementCheckResult) : RequirementCheckResult :=
  RequirementCheckResult.mk v m cs Bool.true Bool.false Bool.false none []

/-- An Or-tagged node as `or_impl` constructs them. -/
def mkOr (v : TrinaryLogicValue) (m : List String)
    (cs : List RequirementCheckResult) : RequirementCheckResult :=
  RequirementCheckResult.mk v m cs Bool.false Bool.true Bool.false none []

/-- A Not-tagged node as `invert_impl` constructs them. -/
def mkNotNode (v : TrinaryLogicValue) (m : List String)
    (cs : List RequirementCheckResult) : RequirementCheckResult :=
  RequirementCheckResult.mk v m cs Bool.false Bool.false Bool.true none []

/-- The probe and decoration of the message-ordering scenario: a probe
returning True with message `["c"]`, `prepend[ANY]=["a"]`,
`prepend[SUCCESS]=["b"]`, `append[SUCCESS]=["d"]`, `append[ANY]=["e"]`. -/
def c1_requirement : Requirement Unit :=
  ((((Requirement.ofCriteria (fun (s : Unit) => (mkLeaf TrinaryLogicValue.true ["c"], s))).prepend_message
    MsgClass.ANY ["a"]).prepend_message MsgClass.SUCCESS ["b"]).append_message
    MsgClass.SUCCESS ["d"]).append_message MsgClass.ANY ["e"]

/-- The nested same-kind tree of the non-fixpoint scenario: an And node
whose first and last children are again And nodes. -/
def t9 : RequirementCheckResult :=
  mkAnd TrinaryLogicValue.true []
    [mkAnd TrinaryLogicValue.true []
      [mkLeaf TrinaryLogicValue.true [], mkLeaf TrinaryLogicValue.true []],
     mkAnd TrinaryLogicValue.true []
      [mkLeaf TrinaryLogicValue.true [], mkLeaf TrinaryLogicValue.true []]]

/-- A leaf result node carrying side-channel data, as `find_executable` and
`find_inkscape_1_0` construct them. -/
def mkLeafK (v : TrinaryLogicValue) (m : List String)
    (kw : List (String × String)) : RequirementCheckResult :=
  RequirementCheckResult.mk v m [] Bool.false Bool.false Bool.false none kw

/-- The left operand of the short-circuit scenario: a failing probe that
records its invocation in the event log (the state). -/
def c4_left : Requirement (List String) :=
  Requirement.ofCriteria (fun s =>
    (mkLeaf TrinaryLogicValue.false ["left failed"], s ++ ["L"]))

/-- The right operand of the short-circuit scenario: a succeeding probe
recording its invocation, with one `on_success` and one `on_failure`
callback that record their firing. -/
def c4_right : Requirement (List String) :=
  ((Requirement.ofCriteria (fun s =>
      (mkLeaf TrinaryLogicValue.true ["right ok"], s ++ ["R"]))).on_success
    (fun _ s => s ++ ["R_on_success"])).on_failure
    (fun _ s => s ++ ["R_on_failure"])

/-- A successful `find_executable('inkscape')` result (True leaf with the
discovered path under `"path"`), the input at which the propagation
behaviour of `find_inkscape_1_0` is exhibited. -/
def c7_inkscape_ok_result : RequirementCheckResult :=
  mkLeafK TrinaryLogicValue.true ["inkscape is found at `/usr/bin/inkscape`"]
    [("path", "/usr/bin/inkscape")]

/-- A concrete external environment for the end-to-end scenario (colors
disabled; the message text plays no role in the verdict or the recorded
discovery fields). -/
def c8_env : SysEnv := ⟨"linux", "never", "", "", ""⟩

/-- The mocked probe outcomes of the end-to-end scenario: inkscape found at
`/usr/bin/x`, pdflatex missing, lualatex found at `/lua/lualatex`, xelatex
missing, GTK3 found, TkInter missing. -/
def c8_probes : ProbeResults :=
  ⟨mkLeafK TrinaryLogicValue.true ["inkscape=1.1 is found"] [("path", "/usr/bin/x")],
   mkLeaf TrinaryLogicValue.false ["`pdflatex` is NOT found in PATH"],
   mkLeafK TrinaryLogicValue.true ["`lualatex` is found at `/lua`"] [("path", "/lua/lualatex")],
   mkLeaf TrinaryLogicValue.false ["`xelatex` is NOT found in PATH"],
   mkLeaf TrinaryLogicValue.true ["GTK3 is found"],
   mkLeaf TrinaryLogicValue.false ["TkInter is not found"]⟩

/-- No node of the tree whose trinary value is Unknown has its
`is_critical` flag set to True (at any depth). -/
inductive NoCriticalUnknown : RequirementCheckResult → Prop where
  | mk (v : TrinaryLogicValue) (msgs : List String)
       (nested : List RequirementCheckResult) (a o n : Bool)
       (crit : Option Bool) (kw : List (String × String)) :
       (v = TrinaryLogicValue.unknown → crit ≠ some Bool.true) →
       (∀ c ∈ nested, NoCriticalUnknown c) →
       NoCriticalUnknown (RequirementCheckResult.mk v msgs nested a o n crit kw)

-- ### Shared lemmas ###

/-- Every branch of the flatten merge step keeps the node's own value. -/
theorem RequirementCheckResult.flattenStep_value_eq (v : TrinaryLogicValue)
    (msgs : List String) (nested : List RequirementCheckResult) (a o n : Bool)
    (crit : Option Bool) (kw : List (String × String)) :
    (RequirementCheckResult.flattenStep v msgs nested a o n crit kw).value = v := by
  cases nested with
  | nil => rfl
  | cons fst rest =>
    simp only [RequirementCheckResult.flattenStep]
    split_ifs <;> rfl

/-- `flatten` keeps the root's value. -/
theorem RequirementCheckResult.flatten_value_eq (t : RequirementCheckResult) :
    t.flatten.value = t.value := by
  cases t with
  | mk v msgs nested a o n crit kw =>
    cases nested with
    | nil => rfl
    | cons c cs =>
      simp only [RequirementCheckResult.flatten]
      exact RequirementCheckResult.flattenStep_value_eq v msgs _ a o n crit kw

/-- Child-by-child flattening keeps the list of child values. -/
theorem RequirementCheckResult.flattenList_value_eq (ts : List RequirementCheckResult) :
    (RequirementCheckResult.flattenList ts).map RequirementCheckResult.value
      = ts.map RequirementCheckResult.value := by
  induction ts with
  | nil => rfl
  | cons c cs ih =>
    simp only [RequirementCheckResult.flattenList, List.map_cons,
      RequirementCheckResult.flatten_value_eq, ih]

-- ### Claim theorems ###

/-- C2: the trinary algebra facts of the spec — AND/OR commute, NOT is an
involution, False/True are absorbing for AND/OR, Unknown absorbs against
the non-dominant unit — stated with the code's own equality `eqv`, under
which Unknown equals only Unknown (and `eqRaw` equates Unknown with a raw
null value). -/
theorem c2_trinary_algebra :
    ∀ a b : TrinaryLogicValue,
      (a.and b).eqv (b.and a) = Bool.true ∧
      (a.or b).eqv (b.or a) = Bool.true ∧
      a.invert.invert.eqv a = Bool.true ∧
      (a.and TrinaryLogicValue.false).eqv TrinaryLogicValue.false = Bool.true ∧
      (a.or TrinaryLogicValue.true).eqv TrinaryLogicValue.true = Bool.true ∧
      (TrinaryLogicValue.true.and TrinaryLogicValue.unknown).eqv TrinaryLogicValue.unknown = Bool.true ∧
      (TrinaryLogicValue.false.or TrinaryLogicValue.unknown).eqv TrinaryLogicValue.unknown = Bool.true ∧
      (a.eqv b = Bool.true ↔ a = b) ∧
      (a.eqv TrinaryLogicValue.unknown = Bool.true ↔ a = TrinaryLogicValue.unknown) ∧
      (a.eqRaw none = Bool.true ↔ a = TrinaryLogicValue.unknown) := by
  intro a b
  cases a <;> cases b <;> decide

/-- C3: flattening is value-preserving — the flattened root keeps the
root's trinary value, and the child-by-child flattening pass keeps every
child's value. -/
theorem c3_flatten_value_preserving :
    (∀ t : RequirementCheckResult, t.flatten.value = t.value) ∧
    (∀ ts : List RequirementCheckResult,
      (RequirementCheckResult.flattenList ts).map RequirementCheckResult.value
        = ts.map RequirementCheckResult.value) :=
  ⟨RequirementCheckResult.flatten_value_eq, RequirementCheckResult.flattenList_value_eq⟩

/-- C1 counterexample: with `prepend[ANY]=["a"]`, `prepend[SUCCESS]=["b"]`,
probe message `["c"]`, `append[SUCCESS]=["d"]`, `append[ANY]=["e"]` and a
probe returning True, the checked messages are NOT
`["a","b","c","d","e"]` (they are `["b","a","c","e","d"]`): `check`
prepends the ANY bucket first and then puts the outcome bucket in front of
it, and appends the ANY bucket before the outcome bucket. -/
theorem c1_message_order_counterexample :
    ¬ ((c1_requirement.check ()).1.messages = ["a", "b", "c", "d", "e"]) := by
  decide

/-- C1 amended: `Requirement.check()` orders the result's messages as
prepend[outcome-class] + prepend[ANY] + original-messages + append[ANY] +
append[outcome-class]; in the concrete scenario the result messages equal
`["b","a","c","e","d"]`. -/
theorem c1_message_order_amended :
    (∀ (v : TrinaryLogicValue) (orig pa ps pe pu aa sa ea ua : List String),
      ((((((((((Requirement.ofCriteria (fun (s : Unit) => (mkLeaf v orig, s))).prepend_message
        MsgClass.ANY pa).prepend_message MsgClass.SUCCESS ps).prepend_message
        MsgClass.ERROR pe).prepend_message MsgClass.UNKNOWN pu).append_message
        MsgClass.ANY aa).append_message MsgClass.SUCCESS sa).append_message
        MsgClass.ERROR ea).append_message MsgClass.UNKNOWN ua).check ()).1.messages
      = (match v with
         | TrinaryLogicValue.true => ps
         | TrinaryLogicValue.false => pe
         | TrinaryLogicValue.unknown => pu) ++ pa ++ orig ++ aa ++
        (match v with
         | TrinaryLogicValue.true => sa
         | TrinaryLogicValue.false => ea
         | TrinaryLogicValue.unknown => ua)) ∧
    (c1_requirement.check ()).1.messages = ["b", "a", "c", "e", "d"] := by
  constructor
  · intro v orig pa ps pe pu aa sa ea ua
    cases v <;>
      simp [Requirement.check, Requirement.ofCriteria, Requirement.prepend_message,
        Requirement.append_message, MessageDict.extend, MessageDict.empty,
        Requirement.runCallbacks, mkLeaf, RequirementCheckResult.withMessages,
        RequirementCheckResult.value, RequirementCheckResult.messages,
        TrinaryLogicValue.eqv]
  · rfl

/-- C6: flattening merges a node with an adjacent child of the same
associative kind: the spec's And-over-And example collapses to one And
node with the three leaves in order; a merged first child contributes its
messages before the node's own and its children at the front; a merged
last child contributes its messages after the node's own and its children
at the back. -/
theorem c6_flatten_merges_same_kind :
    (RequirementCheckResult.flatten
        (mkAnd TrinaryLogicValue.false []
          [mkLeaf TrinaryLogicValue.true [],
           mkAnd TrinaryLogicValue.false
             [] [mkLeaf TrinaryLogicValue.false [], mkLeaf TrinaryLogicValue.unknown []]])
      = mkAnd TrinaryLogicValue.false []
          [mkLeaf TrinaryLogicValue.true [], mkLeaf TrinaryLogicValue.false [],
           mkLeaf TrinaryLogicValue.unknown []]) ∧
    (RequirementCheckResult.flatten
        (mkAnd TrinaryLogicValue.false ["own"]
          [mkAnd TrinaryLogicValue.false ["childmsg"]
             [mkLeaf TrinaryLogicValue.true ["x"], mkLeaf TrinaryLogicValue.false ["y"]],
           mkLeaf TrinaryLogicValue.unknown ["z"]])
      = mkAnd TrinaryLogicValue.false (["childmsg"] ++ ["own"])
          [mkLeaf TrinaryLogicValue.true ["x"], mkLeaf TrinaryLogicValue.false ["y"],
           mkLeaf TrinaryLogicValue.unknown ["z"]]) ∧
    (RequirementCheckResult.flatten
        (mkAnd TrinaryLogicValue.false ["own"]
          [mkLeaf TrinaryLogicValue.true ["x"],
           mkAnd TrinaryLogicValue.false ["childmsg"]
             [mkLeaf TrinaryLogicValue.false ["y"], mkLeaf TrinaryLogicValue.unknown ["z"]]])
      = mkAnd TrinaryLogicValue.false (["own"] ++ ["childmsg"])
          [mkLeaf TrinaryLogicValue.true ["x"], mkLeaf TrinaryLogicValue.false ["y"],
           mkLeaf TrinaryLogicValue.unknown ["z"]]) :=
  ⟨rfl, rfl, rfl⟩

/-- C9: one flatten pass is not a fixpoint: on `t9` (an And whose first and
last children are And nodes) the first pass merges only the first child, so
the flattened root is still an And node whose last child is an And node;
a second pass changes the shape further (3 children become 4), while the
root value is unchanged by both passes. -/
theorem c9_flatten_not_fixpoint :
    t9.flatten.is_and_node = Bool.true ∧
    (t9.flatten.nested.getLast?).map RequirementCheckResult.is_and_node = some Bool.true ∧
    t9.flatten.nested.length = 3 ∧
    t9.flatten.flatten.nested.length = 4 ∧
    t9.flatten.value = t9.value ∧
    t9.flatten.flatten.value = t9.value := by
  decide

/-- `withMessages` keeps the node's value. -/
theorem RequirementCheckResult.withMessages_value_eq (t : RequirementCheckResult)
    (m : List String) : (t.withMessages m).value = t.value := by
  cases t
  rfl

/-- `markAux` keeps every node's value (it only rewrites `is_critical`). -/
theorem RequirementCheckResult.markAux_value_eq (fuel : Nat) (ncv : Bool)
    (t : RequirementCheckResult) :
    (RequirementCheckResult.markAux fuel ncv t).value = t.value := by
  cases fuel with
  | zero => rfl
  | succ fuel =>
    cases t with
    | mk v msgs nested a o n crit kw =>
      simp only [RequirementCheckResult.markAux]
      split_ifs <;> rfl

/-- `mark_critical_errors` keeps the root's value. -/
theorem RequirementCheckResult.markCriticalErrors_value_eq (ncv : Bool)
    (t : RequirementCheckResult) :
    (RequirementCheckResult.markCriticalErrors ncv t).value = t.value :=
  RequirementCheckResult.markAux_value_eq _ ncv t

/-- `markAux` preserves the absence of critical Unknown nodes: the flag is
only ever set on a node whose value is neither `non_critical_value` nor
Unknown. -/
theorem RequirementCheckResult.markAux_no_critical_unknown (fuel : Nat) :
    ∀ (ncv : Bool) (t : RequirementCheckResult), NoCriticalUnknown t →
      NoCriticalUnknown (RequirementCheckResult.markAux fuel ncv t) := by
  induction fuel with
  | zero => intro ncv t h; exact h
  | succ fuel ih =>
    intro ncv t h
    cases t with
    | mk v msgs nested a o n crit kw =>
      rcases h with ⟨_, _, _, _, _, _, _, _, hcrit, hch⟩
      have hmapf : ∀ c ∈ nested.map (fun nst =>
          if (! (nst.value.eqRaw (some ncv))) = Bool.true then
            RequirementCheckResult.markAux fuel ncv nst
          else nst), NoCriticalUnknown c := by
        intro c hc
        rcases List.mem_map.mp hc with ⟨c0, hc0, rfl⟩
        by_cases hcnd : (! (c0.value.eqRaw (some ncv))) = Bool.true
        · simpa [hcnd] using ih ncv c0 (hch c0 hc0)
        · simpa [hcnd] using hch c0 hc0
      have hmapg : ∀ (l : List RequirementCheckResult),
          (∀ c ∈ l, NoCriticalUnknown c) →
          ∀ c ∈ l.map (RequirementCheckResult.markAux fuel (! ncv)),
            NoCriticalUnknown c := by
        intro l hl c hc
        rcases List.mem_map.mp hc with ⟨c0, hc0, rfl⟩
        exact ih (! ncv) c0 (hl c0 hc0)
      simp only [RequirementCheckResult.markAux]
      split_ifs with h1 h2
      · exact NoCriticalUnknown.mk _ _ _ _ _ _ _ _ hcrit hch
      · exact NoCriticalUnknown.mk _ _ _ _ _ _ _ _ hcrit hch
      all_goals {
        have hv : v ≠ TrinaryLogicValue.unknown := by
          intro e
          subst e
          simp [TrinaryLogicValue.eqRaw] at h2
        refine NoCriticalUnknown.mk _ _ _ _ _ _ _ _ (fun e => absurd e hv) ?_
        first
          | exact hmapg _ hmapf
          | exact hmapg _ hch
          | exact hmapf
          | exact hch
      }

/-- C10: after `mark_critical_errors`, no node whose trinary value is
Unknown has its critical flag set, at any depth — for every tree whose
flags satisfy this to begin with (every tree the program constructs has
all flags unset, hence satisfies it). -/
theorem c10_no_critical_unknown (ncv : Bool) (t : RequirementCheckResult)
    (h : NoCriticalUnknown t) :
    NoCriticalUnknown (RequirementCheckResult.markCriticalErrors ncv t) :=
  RequirementCheckResult.markAux_no_critical_unknown _ ncv t h

/-- C10 witness: marking an And node (value False) with an Unknown child
leaves the Unknown child uncritical. -/
theorem c10_no_critical_unknown_witness :
    NoCriticalUnknown
      (RequirementCheckResult.markCriticalErrors Bool.true
        (mkAnd TrinaryLogicValue.false [] [mkLeaf TrinaryLogicValue.unknown []])) :=
  c10_no_critical_unknown Bool.true
    (mkAnd TrinaryLogicValue.false [] [mkLeaf TrinaryLogicValue.unknown []])
    (NoCriticalUnknown.mk _ _ _ _ _ _ _ _ (fun _ => by simp)
      (by
        intro c hc
        simp only [List.mem_singleton] at hc
        subst hc
        exact NoCriticalUnknown.mk _ _ _ _ _ _ _ _ (fun _ => by simp)
          (by intro c hc; simp at hc)))

/-- C5: `mark_critical_errors(non_critical_value)` leaves a node untouched
when its value equals `non_critical_value` or is Unknown; otherwise it
marks the node critical, recursing on an And node only into the children
whose value differs from `non_critical_value` (the concrete And example:
only the False child of `[False, True]` becomes critical), and on a Not
node into the children with the flag inverted (the concrete Not example:
the True child of a Not-tagged False node becomes critical). -/
theorem c5_mark_critical_errors :
    (∀ (ncv : Bool) (t : RequirementCheckResult),
      t.value = TrinaryLogicValue.ofBool ncv ∨ t.value = TrinaryLogicValue.unknown →
      RequirementCheckResult.markCriticalErrors ncv t = t) ∧
    (RequirementCheckResult.markCriticalErrors Bool.true
        (mkAnd TrinaryLogicValue.false []
          [mkLeaf TrinaryLogicValue.false [], mkLeaf TrinaryLogicValue.true []])
      = RequirementCheckResult.mk TrinaryLogicValue.false []
          [RequirementCheckResult.mk TrinaryLogicValue.false [] []
            Bool.false Bool.false Bool.false (some Bool.true) [],
           mkLeaf TrinaryLogicValue.true []]
          Bool.true Bool.false Bool.false (some Bool.true) []) ∧
    (RequirementCheckResult.markCriticalErrors Bool.true
        (mkNotNode TrinaryLogicValue.false [] [mkLeaf TrinaryLogicValue.true []])
      = RequirementCheckResult.mk TrinaryLogicValue.false []
          [RequirementCheckResult.mk TrinaryLogicValue.true [] []
            Bool.false Bool.false Bool.false (some Bool.true) []]
          Bool.false Bool.false Bool.true (some Bool.true) []) := by
  refine ⟨?_, rfl, rfl⟩
  intro ncv t h
  cases t with
  | mk v msgs nested a o n crit kw =>
    simp only [RequirementCheckResult.value] at h
    simp only [RequirementCheckResult.markCriticalErrors,
      RequirementCheckResult.height, RequirementCheckResult.markAux]
    rcases h with h | h
    · rw [if_pos]
      subst h
      cases ncv <;> decide
    · subst h
      rw [if_neg, if_pos]
      · decide
      · cases ncv <;> decide

/-- C5 witness: a True leaf is untouched by the default marking. -/
theorem c5_mark_critical_errors_witness :
    RequirementCheckResult.markCriticalErrors Bool.true
        (mkLeaf TrinaryLogicValue.true [])
      = mkLeaf TrinaryLogicValue.true [] :=
  c5_mark_critical_errors.1 Bool.true (mkLeaf TrinaryLogicValue.true []) (Or.inl rfl)

/-- Builders do not change the stored probe: `on_success` only appends a
callback. -/
theorem Requirement.on_success_criteria {σ : Type} (r : Requirement σ)
    (cb : RequirementCheckResult → σ → σ) :
    (r.on_success cb).criteria = r.criteria := rfl

/-- `on_failure` keeps the stored probe. -/
theorem Requirement.on_failure_criteria {σ : Type} (r : Requirement σ)
    (cb : RequirementCheckResult → σ → σ) :
    (r.on_failure cb).criteria = r.criteria := rfl

/-- `on_unknown` keeps the stored probe. -/
theorem Requirement.on_unknown_criteria {σ : Type} (r : Requirement σ)
    (cb : RequirementCheckResult → σ → σ) :
    (r.on_unknown cb).criteria = r.criteria := rfl

/-- `prepend_message` keeps the stored probe. -/
theorem Requirement.prepend_message_criteria {σ : Type} (r : Requirement σ)
    (c : MsgClass) (m : List String) :
    (r.prepend_message c m).criteria = r.criteria := rfl

/-- `append_message` keeps the stored probe. -/
theorem Requirement.append_message_criteria {σ : Type} (r : Requirement σ)
    (c : MsgClass) (m : List String) :
    (r.append_message c m).criteria = r.criteria := rfl

/-- `overwrite_check_message` keeps the stored probe. -/
theorem Requirement.overwrite_check_message_criteria {σ : Type} (r : Requirement σ)
    (m : List String) :
    (r.overwrite_check_message m).criteria = r.criteria := rfl

/-- `check` decorates messages and fires callbacks but returns a result
with the probe's value. -/
theorem Requirement.check_fst_value {σ : Type} (r : Requirement σ) (s : σ) :
    ((r.check s).1).value = ((r.criteria s).1).value := by
  rcases h : r.criteria s with ⟨result, s1⟩
  simp only [Requirement.check, h]
  split <;> split <;> split <;>
    simp [RequirementCheckResult.withMessages_value_eq]

/-- The value produced by the probe of an And-composite. -/
theorem Requirement.and_criteria_fst_value {σ : Type} (l rhs : Requirement σ) (s : σ) :
    (((l.and rhs).criteria s).1).value
      = ((l.check s).1.value).and ((rhs.check (l.check s).2).1.value) := by
  rcases hL : l.check s with ⟨L, s1⟩
  rcases hR : rhs.check s1 with ⟨R, s2⟩
  simp [Requirement.and, Requirement.ofCriteria, hL, hR, RequirementCheckResult.value]

/-- The value produced by the probe of an Or-composite. -/
theorem Requirement.or_criteria_fst_value {σ : Type} (l rhs : Requirement σ) (s : σ) :
    (((l.or rhs).criteria s).1).value
      = ((l.check s).1.value).or ((rhs.check (l.check s).2).1.value) := by
  rcases hL : l.check s with ⟨L, s1⟩
  rcases hR : rhs.check s1 with ⟨R, s2⟩
  simp [Requirement.or, Requirement.ofCriteria, hL, hR, RequirementCheckResult.value]

/-- A node is unchanged when its own messages are written back. -/
theorem RequirementCheckResult.withMessages_self (t : RequirementCheckResult) :
    t.withMessages t.messages = t := by
  cases t
  rfl

/-- Checking an undecorated requirement (as built by `Requirement.__init__`
with no builder calls, e.g. the composites produced by `__and__`/`__or__`)
returns exactly what the probe returns: all buckets are empty, there is no
overwrite and there are no callbacks. -/
theorem Requirement.check_ofCriteria {σ : Type}
    (f : σ → RequirementCheckResult × σ) (s : σ) :
    (Requirement.ofCriteria f).check s = f s := by
  rcases hf : f s with ⟨res, s1⟩
  simp only [Requirement.ofCriteria, Requirement.check, hf,
    Requirement.runCallbacks, List.foldl_nil, MessageDict.empty]
  split_ifs <;>
    simp [RequirementCheckResult.withMessages_self]

/-- Checking an otherwise undecorated requirement whose message is
overwritten returns the probe's result with the overwritten messages. -/
theorem Requirement.check_overwrite_ofCriteria {σ : Type}
    (f : σ → RequirementCheckResult × σ) (m : List String) (s : σ) :
    ((Requirement.ofCriteria f).overwrite_check_message m).check s
      = ((f s).1.withMessages m, (f s).2) := by
  rcases hf : f s with ⟨res, s1⟩
  simp only [Requirement.ofCriteria, Requirement.overwrite_check_message,
    Requirement.check, hf, Requirement.runCallbacks, List.foldl_nil, MessageDict.empty]
  split_ifs <;>
    simp [RequirementCheckResult.withMessages]

/-- Checking an And-composite: the composite has empty buckets and no
callbacks, so its `check` returns the freshly built And node unchanged —
left operand checked first, right operand checked unconditionally on the
left's output state, values conjoined, children `[L, R]`, no own
messages. -/
theorem Requirement.check_and_eq {σ : Type} (l rhs : Requirement σ) (s : σ) :
    (l.and rhs).check s
      = (RequirementCheckResult.mk
          (((l.check s).1.value).and ((rhs.check (l.check s).2).1.value)) []
          [(l.check s).1, (rhs.check (l.check s).2).1]
          Bool.true Bool.false Bool.false none [],
         (rhs.check (l.check s).2).2) := by
  rcases hL : l.check s with ⟨L, s1⟩
  rcases hR : rhs.check s1 with ⟨R, s2⟩
  simp only [Requirement.and, Requirement.check_ofCriteria, hL, hR]

/-- Checking an Or-composite (same shape as the And case). -/
theorem Requirement.check_or_eq {σ : Type} (l rhs : Requirement σ) (s : σ) :
    (l.or rhs).check s
      = (RequirementCheckResult.mk
          (((l.check s).1.value).or ((rhs.check (l.check s).2).1.value)) []
          [(l.check s).1, (rhs.check (l.check s).2).1]
          Bool.false Bool.true Bool.false none [],
         (rhs.check (l.check s).2).2) := by
  rcases hL : l.check s with ⟨L, s1⟩
  rcases hR : rhs.check s1 with ⟨R, s2⟩
  simp only [Requirement.or, Requirement.check_ofCriteria, hL, hR]

/-- Checking an And-composite decorated only with an overwritten message:
the And node is returned with the overwritten messages. -/
theorem Requirement.check_and_overwrite_eq {σ : Type} (l rhs : Requirement σ)
    (m : List String) (s : σ) :
    ((l.and rhs).overwrite_check_message m).check s
      = (RequirementCheckResult.mk
          (((l.check s).1.value).and ((rhs.check (l.check s).2).1.value)) m
          [(l.check s).1, (rhs.check (l.check s).2).1]
          Bool.true Bool.false Bool.false none [],
         (rhs.check (l.check s).2).2) := by
  rcases hL : l.check s with ⟨L, s1⟩
  rcases hR : rhs.check s1 with ⟨R, s2⟩
  simp only [Requirement.and, Requirement.check_overwrite_ofCriteria, hL, hR]
  simp [RequirementCheckResult.withMessages]

/-- C4: `&` does not short-circuit.  Generally, checking `l & rhs` checks
`l` first, then checks `rhs` unconditionally on `l`'s output state, and
returns an And-tagged node with the conjoined value, children `[L, R]` and
no own messages.  Concretely, with a failing left probe and a succeeding
right probe instrumented over an event log, the log records left, then
right, then exactly one firing of the right operand's `on_success`
callback (and none of its `on_failure` callback). -/
theorem c4_and_no_short_circuit :
    (∀ (σ : Type) (l rhs : Requirement σ) (s : σ),
      (l.and rhs).check s
        = (RequirementCheckResult.mk
            (((l.check s).1.value).and ((rhs.check (l.check s).2).1.value)) []
            [(l.check s).1, (rhs.check (l.check s).2).1]
            Bool.true Bool.false Bool.false none [],
           (rhs.check (l.check s).2).2)) ∧
    ((c4_left.and c4_right).check []).2 = ["L", "R", "R_on_success"] ∧
    ((c4_left.and c4_right).check []).1.messages = [] ∧
    ((c4_left.and c4_right).check []).1.is_and_node = Bool.true ∧
    ((c4_left.and c4_right).check []).1.value
      = TrinaryLogicValue.false.and TrinaryLogicValue.true :=
  ⟨fun _ => Requirement.check_and_eq, rfl, rfl, rfl, rfl⟩

/-- C7 counterexample: `find_inkscape_1_0` does NOT convert a non-zero
subprocess exit: when the executable lookup succeeds and the `--version`
call raises `CalledProcessError`, the probe propagates the exception
instead of returning a False leaf — its `except` clause names only
`(KeyError, OSError)`. -/
theorem c7_propagation_counterexample :
    find_inkscape_1_0 (Except.ok c7_inkscape_ok_result)
        (fun _ => Except.error PyExc.calledProcessError)
      = Except.error PyExc.calledProcessError := rfl

/-- C7 amended: `find_pygtk3` and `find_tkinter` convert all three expected
exceptions (missing key, OS error, non-zero exit) into False leaves and
succeed into True leaves; `find_inkscape_1_0` converts only missing key
and OS error — a non-zero exit (`CalledProcessError`), like any unexpected
exception, propagates; `find_executable` catches nothing: a missing entry
in the executable-name table propagates as a `KeyError`. -/
theorem c7_probe_error_handling_amended :
    (∀ e : PyExc, e ≠ PyExc.other →
      find_pygtk3 (Except.error e)
          = Except.ok (mkLeaf TrinaryLogicValue.false ["GTK3 is not found"]) ∧
      find_tkinter (Except.error e)
          = Except.ok (mkLeaf TrinaryLogicValue.false ["TkInter is not found"])) ∧
    (∀ out : String × String,
      find_pygtk3 (Except.ok out)
          = Except.ok (mkLeaf TrinaryLogicValue.true ["GTK3 is found"]) ∧
      find_tkinter (Except.ok out)
          = Except.ok (mkLeaf TrinaryLogicValue.true ["TkInter is found"])) ∧
    (∀ call : String → Except PyExc (String × String),
      find_inkscape_1_0 (Except.error PyExc.keyError) call
          = Except.ok (mkLeaf TrinaryLogicValue.false ["inkscape is not found"]) ∧
      find_inkscape_1_0 (Except.error PyExc.osError) call
          = Except.ok (mkLeaf TrinaryLogicValue.false ["inkscape is not found"])) ∧
    (∀ (r : RequirementCheckResult) (p : String) (e : PyExc),
      r.getItem "path" = some p →
      e = PyExc.calledProcessError ∨ e = PyExc.other →
      find_inkscape_1_0 (Except.ok r) (fun _ => Except.error e)
          = Except.error e) ∧
    (∀ (config : String → Option String) (chk : String → Bool)
        (names : String → Option (List String)) (system_path : List String)
        (prog_name : String),
      config (prog_name ++ "-executable") = none → names prog_name = none →
      find_executable config chk names system_path prog_name
          = Except.error PyExc.keyError) := by
  refine ⟨?_, ?_, ?_, ?_, ?_⟩
  · intro e he
    cases e <;> simp_all [find_pygtk3, find_tkinter, mkLeaf]
  · intro out
    exact ⟨rfl, rfl⟩
  · intro call
    exact ⟨rfl, rfl⟩
  · intro r p e hpath he
    rcases he with he | he <;>
      subst he <;>
      simp [find_inkscape_1_0, hpath]
  · intro config chk names system_path prog_name hc hn
    simp [find_executable, find_executable_in_path, hc, hn]

/-- C7 witness: the amended behaviour at concrete inputs — an OS error is
converted by `find_pygtk3`; an unexpected exception propagates out of
`find_inkscape_1_0`; a program name absent from the executable-name table
propagates a `KeyError` out of `find_executable`. -/
theorem c7_probe_error_handling_witness :
    find_pygtk3 (Except.error PyExc.osError)
        = Except.ok (mkLeaf TrinaryLogicValue.false ["GTK3 is not found"]) ∧
    find_inkscape_1_0 (Except.ok c7_inkscape_ok_result)
        (fun _ => Except.error PyExc.other)
        = Except.error PyExc.other ∧
    find_executable (fun _ => none) (fun _ => Bool.false) (fun _ => none) []
        "pdflatex"
        = Except.error PyExc.keyError :=
  ⟨(c7_probe_error_handling_amended.1 PyExc.osError (by decide)).1,
   c7_probe_error_handling_amended.2.2.2.1 c7_inkscape_ok_result
     "/usr/bin/inkscape" PyExc.other rfl (Or.inr rfl),
   c7_probe_error_handling_amended.2.2.2.2 (fun _ => none) (fun _ => Bool.false)
     (fun _ => none) [] "pdflatex" rfl rfl⟩

/-- Projection equation for the `value` accessor. -/
theorem RequirementCheckResult.value_mk (v : TrinaryLogicValue) (m : List String)
    (n : List RequirementCheckResult) (a o nn : Bool) (c : Option Bool)
    (k : List (String × String)) :
    (RequirementCheckResult.mk v m n a o nn c k).value = v := rfl

/-- The decorated inkscape requirement's check value is the probe value. -/
theorem req_inkscape_check_value (env : SysEnv) (p : ProbeResults) (s : CheckerState) :
    (((req_inkscape env p).check s).1).value = p.inkscape.value := by
  rw [Requirement.check_fst_value]
  rfl

/-- The decorated pdflatex requirement's check value is the probe value. -/
theorem req_pdflatex_check_value (env : SysEnv) (p : ProbeResults) (s : CheckerState) :
    (((req_pdflatex env p).check s).1).value = p.pdflatex.value := by
  rw [Requirement.check_fst_value]
  rfl

/-- The decorated lualatex requirement's check value is the probe value. -/
theorem req_lualatex_check_value (env : SysEnv) (p : ProbeResults) (s : CheckerState) :
    (((req_lualatex env p).check s).1).value = p.lualatex.value := by
  rw [Requirement.check_fst_value]
  rfl

/-- The decorated xelatex requirement's check value is the probe value. -/
theorem req_xelatex_check_value (env : SysEnv) (p : ProbeResults) (s : CheckerState) :
    (((req_xelatex env p).check s).1).value = p.xelatex.value := by
  rw [Requirement.check_fst_value]
  rfl

/-- The decorated pygtk requirement's check value is the probe value. -/
theorem req_pygtk_check_value (env : SysEnv) (p : ProbeResults) (s : CheckerState) :
    (((req_pygtk env p).check s).1).value = p.pygtk3.value := by
  rw [Requirement.check_fst_value]
  rfl

/-- The decorated tkinter requirement's check value is the probe value. -/
theorem req_tkinter_check_value (env : SysEnv) (p : ProbeResults) (s : CheckerState) :
    (((req_tkinter env p).check s).1).value = p.tkinter.value := by
  rw [Requirement.check_fst_value]
  rfl

/-- The `*latex` group's check value is the disjunction of the three engine
probe values (message decorations do not touch values). -/
theorem latex_group_check_value (env : SysEnv) (p : ProbeResults) (s : CheckerState) :
    (((latex_group env p).check s).1).value
      = (p.pdflatex.value.or p.lualatex.value).or p.xelatex.value := by
  rw [Requirement.check_fst_value]
  simp only [latex_group, Requirement.append_message_criteria,
    Requirement.overwrite_check_message_criteria, Requirement.or_criteria_fst_value,
    Requirement.check_or_eq, RequirementCheckResult.value_mk,
    req_pdflatex_check_value, req_lualatex_check_value, req_xelatex_check_value]

/-- The GUI group's check value is the disjunction of the two toolkit probe
values. -/
theorem gui_group_check_value (env : SysEnv) (p : ProbeResults) (s : CheckerState) :
    (((gui_group env p).check s).1).value
      = p.pygtk3.value.or p.tkinter.value := by
  rw [Requirement.check_fst_value]
  simp only [gui_group, Requirement.append_message_criteria,
    Requirement.overwrite_check_message_criteria, Requirement.or_criteria_fst_value,
    req_pygtk_check_value, req_tkinter_check_value]

/-- C8: the checker's verdict and recorded discoveries.  Generally, for
every environment, probe outcome and starting state, `check()` returns the
trinary value of inkscape AND (pdflatex OR lualatex OR xelatex) AND (gtk3
OR tkinter).  Concretely, in the mocked scenario (inkscape found at
`/usr/bin/x`; pdflatex missing but lualatex found at `/lua/lualatex`;
xelatex missing; GTK3 found, TkInter missing) the verdict is True and the
success callbacks recorded the inkscape path, exactly the succeeding
engine `lualatex` with its path (not the failing `pdflatex`), and the GTK3
flag. -/
theorem c8_checker_end_to_end :
    (∀ (env : SysEnv) (p : ProbeResults) (s0 : CheckerState),
      (TexTextRequirementsChecker.check env p s0).1
        = (p.inkscape.value.and
            ((p.pdflatex.value.or p.lualatex.value).or p.xelatex.value)).and
          (p.pygtk3.value.or p.tkinter.value)) ∧
    TexTextRequirementsChecker.check c8_env c8_probes CheckerState.init
      = (TrinaryLogicValue.true,
         ⟨[("lualatex", "/lua/lualatex")], [], some "/usr/bin/x",
          Bool.true, Bool.false⟩) := by
  constructor
  · intro env p s0
    rcases htop : (textext_requirements env p).check s0 with ⟨cr, s1⟩
    simp only [TexTextRequirementsChecker.check, htop]
    rw [RequirementCheckResult.markCriticalErrors_value_eq,
      RequirementCheckResult.flatten_value_eq]
    have hcr : cr = ((textext_requirements env p).check s0).1 := by rw [htop]
    rw [hcr]
    simp only [textext_requirements, Requirement.check_and_overwrite_eq,
      Requirement.check_and_eq, RequirementCheckResult.value_mk,
      req_inkscape_check_value, latex_group_check_value, gui_group_check_value]
  · have h_ink : (req_inkscape c8_env c8_probes).check CheckerState.init
        = (RequirementCheckResult.mk TrinaryLogicValue.true
            ["Detect inkscape>=1.0", "inkscape=1.1 is found"] []
            Bool.false Bool.false Bool.false none [("path", "/usr/bin/x")],
           ⟨[], [], some "/usr/bin/x", Bool.false, Bool.false⟩) := rfl
    have h_latex : (latex_group c8_env c8_probes).check
          (⟨[], [], some "/usr/bin/x", Bool.false, Bool.false⟩ : CheckerState)
        = (RequirementCheckResult.mk TrinaryLogicValue.true ["Detect *latex"]
            [RequirementCheckResult.mk TrinaryLogicValue.true []
              [RequirementCheckResult.mk TrinaryLogicValue.false
                (["`pdflatex` is NOT found in PATH"]
                  ++ help_message_with_url c8_env "preparation" (some "pdflatex")) []
                Bool.false Bool.false Bool.false none [],
               RequirementCheckResult.mk TrinaryLogicValue.true
                ["`lualatex` is found at `/lua`"] []
                Bool.false Bool.false Bool.false none [("path", "/lua/lualatex")]]
              Bool.false Bool.true Bool.false none [],
             RequirementCheckResult.mk TrinaryLogicValue.false
              (["`xelatex` is NOT found in PATH"]
                ++ help_message_with_url c8_env "preparation" (some "xelatex")) []
              Bool.false Bool.false Bool.false none []]
            Bool.false Bool.true Bool.false none [],
           ⟨[("lualatex", "/lua/lualatex")], [], some "/usr/bin/x",
            Bool.false, Bool.false⟩) := rfl
    have h_gui : (gui_group c8_env c8_probes).check
          (⟨[("lualatex", "/lua/lualatex")], [], some "/usr/bin/x",
            Bool.false, Bool.false⟩ : CheckerState)
        = (RequirementCheckResult.mk TrinaryLogicValue.true ["Detect GUI library"]
            [RequirementCheckResult.mk TrinaryLogicValue.true ["GTK3 is found"] []
              Bool.false Bool.false Bool.false none [],
             RequirementCheckResult.mk TrinaryLogicValue.false
              (["TkInter is not found"]
                ++ help_message_with_url c8_env "tkinter" none) []
              Bool.false Bool.false Bool.false none []]
            Bool.false Bool.true Bool.false none [],
           ⟨[("lualatex", "/lua/lualatex")], [], some "/usr/bin/x",
            Bool.true, Bool.false⟩) := rfl
    have h_A : ((req_inkscape c8_env c8_probes).and
          (latex_group c8_env c8_probes)).check CheckerState.init
        = (RequirementCheckResult.mk TrinaryLogicValue.true []
            [RequirementCheckResult.mk TrinaryLogicValue.true
              ["Detect inkscape>=1.0", "inkscape=1.1 is found"] []
              Bool.false Bool.false Bool.false none [("path", "/usr/bin/x")],
             RequirementCheckResult.mk TrinaryLogicValue.true ["Detect *latex"]
              [RequirementCheckResult.mk TrinaryLogicValue.true []
                [RequirementCheckResult.mk TrinaryLogicValue.false
                  (["`pdflatex` is NOT found in PATH"]
                    ++ help_message_with_url c8_env "preparation" (some "pdflatex")) []
                  Bool.false Bool.false Bool.false none [],
                 RequirementCheckResult.mk TrinaryLogicValue.true
                  ["`lualatex` is found at `/lua`"] []
                  Bool.false Bool.false Bool.false none [("path", "/lua/lualatex")]]
                Bool.false Bool.true Bool.false none [],
               RequirementCheckResult.mk TrinaryLogicValue.false
                (["`xelatex` is NOT found in PATH"]
                  ++ help_message_with_url c8_env "preparation" (some "xelatex")) []
                Bool.false Bool.false Bool.false none []]
              Bool.false Bool.true Bool.false none []]
            Bool.true Bool.false Bool.false none [],
           ⟨[("lualatex", "/lua/lualatex")], [], some "/usr/bin/x",
            Bool.false, Bool.false⟩) := by
      rw [Requirement.check_and_eq, h_ink]
      simp only [h_latex]
      rfl
    have h_top : (textext_requirements c8_env c8_probes).check CheckerState.init
        = (RequirementCheckResult.mk TrinaryLogicValue.true ["TexText requirements"]
            [RequirementCheckResult.mk TrinaryLogicValue.true []
              [RequirementCheckResult.mk TrinaryLogicValue.true
                ["Detect inkscape>=1.0", "inkscape=1.1 is found"] []
                Bool.false Bool.false Bool.false none [("path", "/usr/bin/x")],
               RequirementCheckResult.mk TrinaryLogicValue.true ["Detect *latex"]
                [RequirementCheckResult.mk TrinaryLogicValue.true []
                  [RequirementCheckResult.mk TrinaryLogicValue.false
                    (["`pdflatex` is NOT found in PATH"]
                      ++ help_message_with_url c8_env "preparation" (some "pdflatex")) []
                    Bool.false Bool.false Bool.false none [],
                   RequirementCheckResult.mk TrinaryLogicValue.true
                    ["`lualatex` is found at `/lua`"] []
                    Bool.false Bool.false Bool.false none [("path", "/lua/lualatex")]]
                  Bool.false Bool.true Bool.false none [],
                 RequirementCheckResult.mk TrinaryLogicValue.false
                  (["`xelatex` is NOT found in PATH"]
                    ++ help_message_with_url c8_env "preparation" (some "xelatex")) []
                  Bool.false Bool.false Bool.false none []]
                Bool.false Bool.true Bool.false none []]
              Bool.true Bool.false Bool.false none [],
             RequirementCheckResult.mk TrinaryLogicValue.true ["Detect GUI library"]
              [RequirementCheckResult.mk TrinaryLogicValue.true ["GTK3 is found"] []
                Bool.false Bool.false Bool.false none [],
               RequirementCheckResult.mk TrinaryLogicValue.false
                (["TkInter is not found"]
                  ++ help_message_with_url c8_env "tkinter" none) []
                Bool.false Bool.false Bool.false none []]
              Bool.false Bool.true Bool.false none []]
            Bool.true Bool.false Bool.false none [],
           ⟨[("lualatex", "/lua/lualatex")], [], some "/usr/bin/x",
            Bool.true, Bool.false⟩) := by
      rw [textext_requirements, Requirement.check_and_overwrite_eq, h_A]
      simp only [h_gui]
      rfl
    simp only [TexTextRequirementsChecker.check, h_top]
    rfl

/-- Every tree has height at least one. -/
theorem RequirementCheckResult.height_pos (t : RequirementCheckResult) :
    1 ≤ t.height := by
  cases t
  simp [RequirementCheckResult.height]

/-- A member's height is bounded by the list height. -/
theorem RequirementCheckResult.height_le_heightList (c : RequirementCheckResult) :
    ∀ l : List RequirementCheckResult, c ∈ l →
      c.height ≤ RequirementCheckResult.heightList l := by
  intro l
  induction l with
  | nil => intro h; cases h
  | cons d ds ih =>
    intro h
    simp only [RequirementCheckResult.heightList]
    rcases List.mem_cons.mp h with h | h
    · subst h
      exact le_max_left _ _
    · exact le_trans (ih h) (le_max_right _ _)

/-- Mapping a height-preserving function over a list keeps the list
height. -/
theorem RequirementCheckResult.heightList_map_eq (l : List RequirementCheckResult)
    (f : RequirementCheckResult → RequirementCheckResult)
    (h : ∀ c ∈ l, (f c).height = c.height) :
    RequirementCheckResult.heightList (l.map f)
      = RequirementCheckResult.heightList l := by
  induction l with
  | nil => rfl
  | cons d ds ih =>
    simp only [List.map_cons, RequirementCheckResult.heightList]
    rw [h d (List.mem_cons_self d ds), ih (fun c hc => h c (List.mem_cons_of_mem d hc))]

/-- `markAux` only rewrites `is_critical` flags, so it preserves height at
every fuel. -/
theorem RequirementCheckResult.markAux_height_eq (fuel : Nat) :
    ∀ (ncv : Bool) (t : RequirementCheckResult),
      (RequirementCheckResult.markAux fuel ncv t).height = t.height := by
  induction fuel with
  | zero => intro ncv t; rfl
  | succ fuel ih =>
    intro ncv t
    cases t with
    | mk v msgs nested a o n crit kw =>
      have hf : ∀ c ∈ nested,
          ((fun nst => if (! (nst.value.eqRaw (some ncv))) = Bool.true then
              RequirementCheckResult.markAux fuel ncv nst
            else nst) c).height = c.height := by
        intro c _
        by_cases hc : (! (c.value.eqRaw (some ncv))) = Bool.true <;> simp [hc, ih]
      simp only [RequirementCheckResult.markAux]
      split_ifs <;>
        simp only [RequirementCheckResult.height] <;>
        first
          | rfl
          | rw [RequirementCheckResult.heightList_map_eq _ _ hf]
          | (rw [RequirementCheckResult.heightList_map_eq _ _ (fun c _ => ih (! ncv) c)] <;>
             try rw [RequirementCheckResult.heightList_map_eq _ _ hf])

/-- Fuel above the tree height is irrelevant to `markAux`: together with
`markAux_height_eq` this shows the fuel-zero branch is unreachable from
`markCriticalErrors`, i.e. the fuel encoding computes the Python
recursion. -/
theorem RequirementCheckResult.markAux_fuel_congr :
    ∀ (f1 f2 : Nat) (ncv : Bool) (t : RequirementCheckResult),
      t.height ≤ f1 → t.height ≤ f2 →
      RequirementCheckResult.markAux f1 ncv t
        = RequirementCheckResult.markAux f2 ncv t := by
  intro f1
  induction f1 with
  | zero =>
    intro f2 ncv t h1 _
    have := RequirementCheckResult.height_pos t
    omega
  | succ f1 ih =>
    intro f2 ncv t h1 h2
    cases f2 with
    | zero =>
      have := RequirementCheckResult.height_pos t
      omega
    | succ f2 =>
      cases t with
      | mk v msgs nested a o n crit kw =>
        have hb1 : RequirementCheckResult.heightList nested ≤ f1 := by
          simp only [RequirementCheckResult.height] at h1
          omega
        have hb2 : RequirementCheckResult.heightList nested ≤ f2 := by
          simp only [RequirementCheckResult.height] at h2
          omega
        have hf : ∀ c ∈ nested,
            (if (! (c.value.eqRaw (some ncv))) = Bool.true then
              RequirementCheckResult.markAux f1 ncv c
            else c)
            = (if (! (c.value.eqRaw (some ncv))) = Bool.true then
              RequirementCheckResult.markAux f2 ncv c
            else c) := by
          intro c hc
          have hch := RequirementCheckResult.height_le_heightList c nested hc
          by_cases hcnd : (! (c.value.eqRaw (some ncv))) = Bool.true <;>
            simp only [hcnd, if_true, if_false]
          · exact ih f2 ncv c (le_trans hch hb1) (le_trans hch hb2)
          · simp
        have hmapf : nested.map (fun nst =>
              if (! (nst.value.eqRaw (some ncv))) = Bool.true then
                RequirementCheckResult.markAux f1 ncv nst
              else nst)
            = nested.map (fun nst =>
              if (! (nst.value.eqRaw (some ncv))) = Bool.true then
                RequirementCheckResult.markAux f2 ncv nst
              else nst) :=
          List.map_congr_left hf
        have hg : ∀ (l : List RequirementCheckResult),
            (∀ c ∈ l, c.height ≤ RequirementCheckResult.heightList nested) →
            l.map (RequirementCheckResult.markAux f1 (! ncv))
              = l.map (RequirementCheckResult.markAux f2 (! ncv)) := by
          intro l hl
          refine List.map_congr_left (fun c hc => ?_)
          exact ih f2 (! ncv) c (le_trans (hl c hc) hb1) (le_trans (hl c hc) hb2)
        simp only [RequirementCheckResult.markAux]
        split_ifs
        · rfl
        · rfl
        · rw [hmapf, hg]
          intro c hc
          rcases List.mem_map.mp hc with ⟨c0, hc0, rfl⟩
          by_cases hcnd : (! (c0.value.eqRaw (some ncv))) = Bool.true <;>
            simp only [hcnd, if_true, if_false]
          · rw [RequirementCheckResult.markAux_height_eq]
            exact RequirementCheckResult.height_le_heightList c0 nested hc0
          · exact RequirementCheckResult.height_le_heightList c0 nested hc0
        · rw [hg nested (fun c hc => RequirementCheckResult.height_le_heightList c nested hc)]
        · rw [hmapf]
        · rfl

/-- `mark_critical_errors` equals `markAux` at any sufficient fuel: the
chosen fuel `height t` is canonical. -/
theorem RequirementCheckResult.markCriticalErrors_eq_markAux
    (ncv : Bool) (t : RequirementCheckResult) (f : Nat) (h : t.height ≤ f) :
    RequirementCheckResult.markCriticalErrors ncv t
      = RequirementCheckResult.markAux f ncv t :=
  RequirementCheckResult.markAux_fuel_congr t.height f ncv t (le_refl _) h
